import Mathlib

/-!
Verification of the video-translation agent plugin
(`samples/video-translation/python/microsoft_video_translation_client/agent.py`)
and of the long-running job orchestration client it drives, as described by
the specification.  Pure shallow embedding: the plugin methods become Lean
functions over an abstract client behaviour (the outcome of each underlying
client call, with Python exceptions modelled as `Except PyExn`), and the
client-side polling/submission/delete logic — whose source file is not part
of the repository snapshot — is modelled from the specification where noted.
-/

namespace VT

/-- Job status of a Translation or Iteration resource. -/
inductive Status
  | NotStarted
  | Running
  | Succeeded
  | Failed
deriving DecidableEq, Repr

/-- Terminal states: `Succeeded` or `Failed`. -/
def Status.isTerminal : Status → Bool
  | .Succeeded => true
  | .Failed => true
  | _ => false

/-- Rendering of a status, used by the agent's f-strings. -/
def Status.toText : Status → String
  | .NotStarted => "NotStarted"
  | .Running => "Running"
  | .Succeeded => "Succeeded"
  | .Failed => "Failed"

/-- `VoiceKind` from `video_translation_enum`. -/
inductive VoiceKind
  | PlatformVoice
  | PersonalVoice
deriving DecidableEq, Repr

/-- Rendering of a voice kind, used by the agent's f-strings. -/
def VoiceKind.toText : VoiceKind → String
  | .PlatformVoice => "PlatformVoice"
  | .PersonalVoice => "PersonalVoice"

/-- `WebvttFileKind` from `video_translation_enum`. -/
inductive WebvttFileKind
  | MetadataJson
  | SourceLocaleSubtitle
  | TargetLocaleSubtitle
deriving DecidableEq, Repr

/-- The `result` object of a succeeded iteration (each URL independently
optional). -/
structure IterationResult where
  translatedVideoFileUrl : Option String
  sourceLocaleSubtitleWebvttFileUrl : Option String
  targetLocaleSubtitleWebvttFileUrl : Option String
  metadataJsonWebvttFileUrl : Option String
deriving DecidableEq, Repr

/-- An Iteration resource as the agent reads it. -/
structure Iteration where
  id : String
  status : Status
  result : Option IterationResult
deriving DecidableEq, Repr

/-- The immutable input of a Translation. -/
structure TranslationInput where
  videoFileUrl : String
  sourceLocale : String
  targetLocale : String
  voiceKind : VoiceKind
  speakerCount : Option Nat
  subtitleMaxCharCountPerSegment : Option Nat
  exportSubtitleInVideo : Option Bool
deriving DecidableEq, Repr

/-- A Translation resource as the agent reads it. -/
structure Translation where
  id : String
  status : Status
  createdDateTime : String
  lastActionDateTime : String
  input : TranslationInput
  latestSucceededIteration : Option Iteration
deriving DecidableEq, Repr

/-- The paged list object returned by `request_list_translations`
(`translations.value` is the list of translations). -/
structure PagedTranslations where
  value : List Translation
deriving DecidableEq, Repr

/-- A Python exception, reduced to its message (`str(e)`). -/
structure PyExn where
  msg : String
deriving DecidableEq, Repr

/-- Python attribute access on a possibly-`None` value: `None.attr` raises
`AttributeError`, which the agent's handlers catch. -/
def pyAttr {α : Type} (o : Option α) (emsg : String) : Except PyExn α :=
  match o with
  | some a => .ok a
  | none => .error ⟨emsg⟩

/-- One `if url:`-guarded f-string line of the result-URL block: Python
truthiness makes both `None` and the empty string skip the line. -/
def optLine (label : String) (o : Option String) : String :=
  match o with
  | some u => if u = "" then "" else label ++ u ++ "\n"
  | none => ""

/-- The four-line result-URL block built by `translate_video` and
`create_iteration_with_webvtt`. -/
def iterationResultUrls (r : IterationResult) : String :=
  optLine "Translated Video: " r.translatedVideoFileUrl ++
  optLine "Source Subtitles: " r.sourceLocaleSubtitleWebvttFileUrl ++
  optLine "Target Subtitles: " r.targetLocaleSubtitleWebvttFileUrl ++
  optLine "Metadata: " r.metadataJsonWebvttFileUrl

/-- The `(success, error, translation, iteration)` tuple returned by
`create_translate_and_run_first_iteration_until_terminated` and
`run_iteration_with_webvtt_until_terminated`. -/
structure TerminatedOutcome where
  success : Bool
  error : String
  translation : Option Translation
  iteration : Option Iteration
deriving DecidableEq, Repr

/-- Line 106 of `agent.py`:
`VoiceKind.PlatformVoice if voice_kind == "PlatformVoice" else VoiceKind.PersonalVoice`. -/
def voiceKindOf (voice_kind : String) : VoiceKind :=
  if voice_kind = "PlatformVoice" then .PlatformVoice else .PersonalVoice

/-- `VideoTranslationPlugin.translate_video`.  The underlying client call is
abstracted as a function of the voice kind actually passed to it; a raised
exception is an `Except.error`.  Mirrors the body including the unguarded
`translation.id` access (an `AttributeError` if `translation` is `None`,
caught by the enclosing handler) and the guarded `if iteration and
iteration.result:` block. -/
def translate_video (client : VoiceKind → Except PyExn TerminatedOutcome)
    (voice_kind : String) : String :=
  let body : Except PyExn String := do
    let voice_kind_enum := voiceKindOf voice_kind
    let o ← client voice_kind_enum
    if o.success then do
      let t ← pyAttr o.translation "'NoneType' object has no attribute 'id'"
      let result_urls :=
        match o.iteration with
        | none => ""
        | some it =>
          match it.result with
          | none => ""
          | some r => iterationResultUrls r
      pure ("Translation successful! Translation ID: " ++ t.id ++ "\n" ++ result_urls)
    else
      pure ("Translation failed: " ++ o.error)
  match body with
  | .ok s => s
  | .error e => "An error occurred during translation: " ++ e.msg

/-- Lines 148-156 of `agent.py`: the string-to-enum dispatch for
`webvtt_file_kind`; anything but the three literals yields `None`. -/
def webvttKindOf (s : String) : Option WebvttFileKind :=
  if s = "MetadataJson" then some .MetadataJson
  else if s = "SourceLocaleSubtitle" then some .SourceLocaleSubtitle
  else if s = "TargetLocaleSubtitle" then some .TargetLocaleSubtitle
  else none

/-- The local validation message returned for an unrecognized kind. -/
def invalidWebvttKindMsg (webvtt_file_kind : String) : String :=
  "Invalid WebVTT file kind: " ++ webvtt_file_kind ++
  ". Must be 'MetadataJson', 'SourceLocaleSubtitle', or 'TargetLocaleSubtitle'."

/-- `VideoTranslationPlugin.create_iteration_with_webvtt`.  The second
component counts invocations of the underlying client
(`run_iteration_with_webvtt_until_terminated`): 0 when the kind fails local
validation, 1 otherwise. -/
def create_iteration_with_webvtt
    (client : WebvttFileKind → Except PyExn TerminatedOutcome)
    (webvtt_file_kind : String) : String × Nat :=
  match webvttKindOf webvtt_file_kind with
  | none => (invalidWebvttKindMsg webvtt_file_kind, 0)
  | some k =>
    let body : Except PyExn String := do
      let o ← client k
      if o.success then do
        let it ← pyAttr o.iteration "'NoneType' object has no attribute 'id'"
        let result_urls :=
          match it.result with
          | none => ""
          | some r => iterationResultUrls r
        pure ("Iteration successfully created! Iteration ID: " ++ it.id ++ "\n" ++ result_urls)
      else
        pure ("Iteration creation failed: " ++ o.error)
    match body with
    | .ok s => (s, 1)
    | .error e => ("An error occurred during iteration creation: " ++ e.msg, 1)

/-- The `(success, error, translations)` tuple returned by
`request_list_translations`. -/
structure ListOutcome where
  success : Bool
  error : String
  translations : Option PagedTranslations
deriving DecidableEq, Repr

/-- One enumerated entry of the listing (Python `enumerate` index shown
1-based). -/
def translationListEntry (idx : Nat) (t : Translation) : String :=
  toString (idx + 1) ++ ". ID: " ++ t.id ++ "\n" ++
  "   Status: " ++ t.status.toText ++ "\n" ++
  "   Created: " ++ t.createdDateTime ++ "\n" ++
  "   Source: " ++ t.input.sourceLocale ++ " → Target: " ++ t.input.targetLocale ++ "\n\n"

/-- `VideoTranslationPlugin.list_translations`.  Note the condition
`if success and translations and translations.value:` and that the `else`
branch returns a fixed message which does not mention `error`. -/
def list_translations (client : Except PyExn ListOutcome) : String :=
  match client with
  | .error e => "An error occurred while listing translations: " ++ e.msg
  | .ok o =>
    match o.translations with
    | some p =>
      if o.success && !p.value.isEmpty then
        "Your translations:\n" ++
          String.join (p.value.enum.map (fun q => translationListEntry q.1 q.2))
      else
        "No translations found or error retrieving translations."
    | none => "No translations found or error retrieving translations."

/-- The `(success, error, translation)` tuple returned by
`request_get_translation`. -/
structure GetOutcome where
  success : Bool
  error : String
  translation : Option Translation
deriving DecidableEq, Repr

/-- `VideoTranslationPlugin.get_translation_details`. -/
def get_translation_details (client : Except PyExn GetOutcome) : String :=
  match client with
  | .error e => "An error occurred while getting translation details: " ++ e.msg
  | .ok o =>
    match o.translation with
    | some t =>
      if o.success then
        "Translation ID: " ++ t.id ++ "\n" ++
        "Status: " ++ t.status.toText ++ "\n" ++
        "Created: " ++ t.createdDateTime ++ "\n" ++
        "Last Action: " ++ t.lastActionDateTime ++ "\n" ++
        "Source: " ++ t.input.sourceLocale ++ " → Target: " ++ t.input.targetLocale ++ "\n" ++
        "Voice Kind: " ++ t.input.voiceKind.toText ++ "\n" ++
        (match t.latestSucceededIteration with
         | some it =>
           match it.result with
           | some r =>
             "\nLatest successful iteration results:\n" ++
             optLine "Translated Video: " r.translatedVideoFileUrl ++
             optLine "Target Subtitles: " r.targetLocaleSubtitleWebvttFileUrl
           | none => ""
         | none => "")
      else
        "Translation not found or error: " ++ o.error
    | none => "Translation not found or error: " ++ o.error

/-- The `(success, error)` tuple returned by `request_delete_translation`. -/
structure DeleteOutcome where
  success : Bool
  error : String
deriving DecidableEq, Repr

/-- `VideoTranslationPlugin.delete_translation`. -/
def delete_translation (client : Except PyExn DeleteOutcome)
    (translation_id : String) : String :=
  match client with
  | .error e => "An error occurred while deleting the translation: " ++ e.msg
  | .ok o =>
    if o.success then
      "Translation " ++ translation_id ++ " deleted successfully."
    else
      "Failed to delete translation: " ++ o.error

/-! ## Storage operations and the attributes `__init__` assigns -/

/-- The attribute dictionary of the plugin object after `__init__`, as pairs
of attribute name and Python truthiness of the stored value.  Both the `try`
branch and the `except` fallback of `__init__` assign only `self.client`
(the credential is a local variable there; every line that would assign
`self.credential` is commented out). -/
def initAssignedAttrs : List (String × Bool) := [("client", true)]

/-- Python `self.<name>`: the truthiness of the stored value when the
attribute was assigned, otherwise an `AttributeError`. -/
def pySelfAttr (attrs : List (String × Bool)) (name : String) : Except PyExn Bool :=
  match attrs.lookup name with
  | some b => .ok b
  | none =>
    .error ⟨"'VideoTranslationPlugin' object has no attribute '" ++ name ++ "'"⟩

/-- The outcomes of the Azure blob operations an invocation may perform,
abstracted (each may raise). -/
structure StorageBehavior where
  createIfNotExists : Except PyExn Unit
  uploadBlob : Except PyExn Unit
  blobExists : Except PyExn Bool
  downloadBlob : Except PyExn String
  blobContentType : Except PyExn String
  blobSize : Except PyExn Nat
deriving Repr

/-- The RBAC hint appended to inner upload failures. -/
def uploadRbacHint : String :=
  "\n\nThis may indicate that the Managed Identity does not have sufficient RBAC permissions (like Storage Blob Data Contributor) on this storage account."

/-- The RBAC hint appended to inner download failures. -/
def downloadRbacHint : String :=
  "\n\nThis may indicate that the Managed Identity does not have sufficient RBAC permissions (like Storage Blob Data Reader) on this storage account."

/-- `VideoTranslationPlugin.upload_to_storage`.  The second component counts
the storage operations actually performed (`create_if_not_exists`,
`upload_blob`).  The first statement of the outer `try` reads
`self.credential`. -/
def upload_to_storage (attrs : List (String × Bool)) (st : StorageBehavior)
    (account_name container_name blob_name : String) : String × Nat :=
  match pySelfAttr attrs "credential" with
  | .error e => ("Error initializing storage client: " ++ e.msg, 0)
  | .ok cred =>
    if !cred then ("No valid credential available for storage access.", 0)
    else
      match st.createIfNotExists with
      | .error e => ("Error during blob upload operation: " ++ e.msg ++ uploadRbacHint, 1)
      | .ok _ =>
        match st.uploadBlob with
        | .error e => ("Error during blob upload operation: " ++ e.msg ++ uploadRbacHint, 2)
        | .ok _ =>
          ("Successfully uploaded content to blob storage:\nURL: https://" ++
             account_name ++ ".blob.core.windows.net/" ++ container_name ++ "/" ++
             blob_name, 2)

/-- The `content[:1000] + "..."` preview of `download_from_storage`. -/
def contentPreview (content : String) : String :=
  if content.length > 1000 then content.take 1000 ++ "..." else content

/-- `VideoTranslationPlugin.download_from_storage`.  The second component
counts the storage operations actually performed (`exists`, `download_blob`,
`get_blob_properties`).  After the initial prints, the outer `try` reads
`self.credential`. -/
def download_from_storage (attrs : List (String × Bool)) (st : StorageBehavior)
    (container_name blob_name : String) : String × Nat :=
  match pySelfAttr attrs "credential" with
  | .error e => ("Error initializing storage client: " ++ e.msg, 0)
  | .ok cred =>
    if !cred then ("No valid credential available for storage access.", 0)
    else
      match st.blobExists with
      | .error e => ("Error downloading blob content: " ++ e.msg ++ downloadRbacHint, 1)
      | .ok ex =>
        if !ex then
          ("Error: Blob '" ++ blob_name ++ "' does not exist in container '" ++
             container_name ++ "'.", 1)
        else
          match st.downloadBlob with
          | .error e => ("Error downloading blob content: " ++ e.msg ++ downloadRbacHint, 2)
          | .ok content =>
            match st.blobContentType, st.blobSize with
            | .error e, _ => ("Error downloading blob content: " ++ e.msg ++ downloadRbacHint, 3)
            | _, .error e => ("Error downloading blob content: " ++ e.msg ++ downloadRbacHint, 3)
            | .ok ctype, .ok size =>
              ("Successfully downloaded blob content using Managed Identity.\n" ++
                 "Blob: " ++ blob_name ++ "\n" ++
                 "Content Type: " ++ ctype ++ "\n" ++
                 "Size: " ++ toString size ++ " bytes\n\n" ++
                 "Content Preview:\n" ++ contentPreview content, 3)

/-! ## The orchestration client, modelled from the specification

The plugin calls into `VideoTranslationClient`
(`create_translate_and_run_first_iteration_until_terminated`,
`run_iteration_with_webvtt_until_terminated`, `request_list_translations`,
`request_get_translation`, `request_delete_translation`); that module is not
part of the repository snapshot, so its polling, submission and delete logic
is modelled from sections 4.2, 4.4 and 4.5 of the specification. -/

/-- Modelled from the spec (section 7): the transport error taxonomy.
`video_translation_client.py` is not in the repository snapshot. -/
inductive TransportError
  | NotFound
  | RateLimited
  | ServiceError (statusCode : Nat) (message : String)
  | NetworkFailure (message : String)
deriving DecidableEq, Repr

/-- Modelled from the spec (section 4.4): transient errors are network
failures, rate limits and 5xx; a 4xx other than rate-limit is fatal. -/
def TransportError.isTransient : TransportError → Bool
  | .NetworkFailure _ => true
  | .RateLimited => true
  | .ServiceError code _ => 500 ≤ code
  | .NotFound => false

/-- Modelled from the spec (section 4.4): the wait error taxonomy; `Timeout`
carries the last observed resource snapshot. -/
inductive WaitError (α : Type)
  | Timeout (last : Option α)
  | Cancelled
  | ServiceRejected (e : TransportError)
deriving Repr

/-- Modelled from the spec (section 4.4): a poll policy bounding the poll
count and the transient-retry count. -/
structure PollPolicy where
  maxPollCount : Nat
  maxTransientRetries : Nat
deriving DecidableEq, Repr

/-- A status-bearing resource snapshot, as observed by one poll. -/
structure Resource where
  id : String
  status : Status
deriving DecidableEq, Repr

/-- Modelled from the spec (section 4.4): the poll loop of `awaitTerminal`.
`fetch k` is the outcome of the (k+1)-th fetch invocation; `cancelled` is the
cooperative cancellation signal checked once per iteration; `remaining` is
the number of polls the policy still allows; the second component of the
value is the total number of fetch invocations made.
`video_translation_client.py` is not in the repository snapshot. -/
def awaitTerminalAux {α : Type} (statusOf : α → Status)
    (fetch : Nat → Except TransportError α) (cancelled : Nat → Bool) :
    Nat → Nat → Nat → Option α → Except (WaitError α) α × Nat
  | 0, k, _, last =>
    if cancelled k then (.error .Cancelled, k) else (.error (.Timeout last), k)
  | remaining + 1, k, retries, last =>
    if cancelled k then (.error .Cancelled, k)
    else
      match fetch k with
      | .ok r =>
        if (statusOf r).isTerminal then (.ok r, k + 1)
        else awaitTerminalAux statusOf fetch cancelled remaining (k + 1) retries (some r)
      | .error e =>
        if e.isTransient then
          match retries with
          | 0 => (.error (.ServiceRejected e), k + 1)
          | retries + 1 =>
            awaitTerminalAux statusOf fetch cancelled remaining (k + 1) retries last
        else (.error (.ServiceRejected e), k + 1)

/-- Modelled from the spec (section 4.4): `awaitTerminal(fetch, policy)`,
returning the resolved resource or a `WaitError`, together with the number of
fetch invocations made. -/
def awaitTerminal {α : Type} (statusOf : α → Status)
    (fetch : Nat → Except TransportError α) (cancelled : Nat → Bool)
    (policy : PollPolicy) : Except (WaitError α) α × Nat :=
  awaitTerminalAux statusOf fetch cancelled policy.maxPollCount 0
    policy.maxTransientRetries none

/-- Modelled from the spec (section 4.5): the service response to
`DELETE /translations/id`: no-content when the id exists, `NotFound`
otherwise. -/
inductive DeleteResponse
  | noContent
  | notFound
  | failure (statusCode : Nat) (message : String)
deriving DecidableEq, Repr

/-- Modelled from the spec (section 4.5): the remote delete endpoint over a
service state listing the live translation ids. -/
def serviceDelete (ids : List String) (id : String) : DeleteResponse × List String :=
  if id ∈ ids then (.noContent, ids.erase id) else (.notFound, ids)

/-- Modelled from the spec (section 4.5): `request_delete_translation` — the
client maps the service-documented `NotFound` on delete to success, so
repeated cleanup calls are safe.  Returns the `(success, error)` tuple and
the new service state.  `video_translation_client.py` is not in the
repository snapshot. -/
def request_delete_translation (ids : List String) (id : String) :
    (Bool × String) × List String :=
  match serviceDelete ids id with
  | (.noContent, rest) => ((true, ""), rest)
  | (.notFound, rest) => ((true, ""), rest)
  | (.failure _ message, rest) => ((false, message), rest)

/-- Modelled from the spec (section 4.2): the bounds the validation places on
`subtitleMaxCharCountPerSegment` (the spec calls them service-documented
without pinning them, so they are parameters here). -/
structure ValidationBounds where
  subtitleCharCountLo : Nat
  subtitleCharCountHi : Nat
deriving DecidableEq, Repr

/-- Modelled from the spec (section 4.2): local validation of a
`TranslationInput` — non-empty locales, `speakerCount ≥ 1` when present,
`subtitleMaxCharCountPerSegment` within bounds when present. -/
def validateInput (b : ValidationBounds) (inp : TranslationInput) : Bool :=
  inp.sourceLocale ≠ "" && inp.targetLocale ≠ "" &&
  (match inp.speakerCount with
   | none => true
   | some n => 1 ≤ n) &&
  (match inp.subtitleMaxCharCountPerSegment with
   | none => true
   | some c => b.subtitleCharCountLo ≤ c && c ≤ b.subtitleCharCountHi)

/-- Modelled from the spec (section 4.2): the submission error taxonomy
(`translationFailed` is the typed failure reported when the Translation
reaches `Failed` before the Iteration wait). -/
inductive SubmissionError
  | validation (message : String)
  | transport (e : TransportError)
  | translationFailed (t : Translation)
  | translationWait (e : WaitError Translation)
  | iterationWait (e : WaitError Iteration)
deriving Repr

/-- Modelled from the spec (section 4.2): the remote interactions `submit`
performs — the creation request (which also fetches the implicitly created
first Iteration) and the two poll streams. -/
structure SubmitEnv where
  create : Except TransportError (Translation × Iteration)
  pollTranslation : Nat → Except TransportError Translation
  pollIteration : Nat → Except TransportError Iteration

/-- Modelled from the spec (section 4.2): `submit(input)` — validate locally,
issue the creation request, await the Translation terminal state, stop with a
typed failure if it is `Failed`, otherwise await the first Iteration terminal
state and return both final resources.  The second component is the number of
iteration-poll fetch invocations made (0 on every path that stops before the
Iteration wait).  `video_translation_client.py` is not in the repository
snapshot. -/
def submit (env : SubmitEnv) (b : ValidationBounds) (policy : PollPolicy)
    (inp : TranslationInput) :
    Except SubmissionError (Translation × Iteration) × Nat :=
  if validateInput b inp then
    match env.create with
    | .error e => (.error (.transport e), 0)
    | .ok _ =>
      match awaitTerminal Translation.status env.pollTranslation (fun _ => false) policy with
      | (.error w, _) => (.error (.translationWait w), 0)
      | (.ok t, _) =>
        if t.status = .Failed then (.error (.translationFailed t), 0)
        else
          match awaitTerminal Iteration.status env.pollIteration (fun _ => false) policy with
          | (.error w, n) => (.error (.iterationWait w), n)
          | (.ok it, n) => (.ok (t, it), n)
  else (.error (.validation "invalid TranslationInput"), 0)

/-! ## Helper lemmas -/

/-- On every path, `request_delete_translation` reports success: the service
answers no-content or `NotFound`, and the client maps both to success. -/
theorem request_delete_success (ids : List String) (id : String) :
    (request_delete_translation ids id).1.1 = true := by
  by_cases h : id ∈ ids <;> simp [request_delete_translation, serviceDelete, h]

/-- A status is terminal exactly when it is `Succeeded` or `Failed`. -/
theorem Status.isTerminal_iff (s : Status) :
    s.isTerminal = true ↔ s = .Succeeded ∨ s = .Failed := by
  cases s <;> simp [Status.isTerminal]

/-- One-step unfolding of the poll loop when fuel remains. -/
theorem awaitTerminalAux_succ {α : Type} (statusOf : α → Status)
    (fetch : Nat → Except TransportError α) (cancelled : Nat → Bool)
    (remaining k retries : Nat) (last : Option α) :
    awaitTerminalAux statusOf fetch cancelled (remaining + 1) k retries last =
      (if cancelled k then (.error .Cancelled, k)
       else
         match fetch k with
         | .ok r =>
           if (statusOf r).isTerminal then (.ok r, k + 1)
           else awaitTerminalAux statusOf fetch cancelled remaining (k + 1) retries (some r)
         | .error e =>
           if e.isTransient then
             match retries with
             | 0 => (.error (.ServiceRejected e), k + 1)
             | retries + 1 =>
               awaitTerminalAux statusOf fetch cancelled remaining (k + 1) retries last
           else (.error (.ServiceRejected e), k + 1)) := rfl

/-- Whenever the poll loop resolves with a resource, that resource's status
is terminal: every non-terminal observation makes the loop continue. -/
theorem awaitTerminalAux_ok_isTerminal {α : Type} (statusOf : α → Status)
    (fetch : Nat → Except TransportError α) (cancelled : Nat → Bool) :
    ∀ remaining k retries last r n,
      awaitTerminalAux statusOf fetch cancelled remaining k retries last = (.ok r, n) →
      (statusOf r).isTerminal = true := by
  intro remaining
  induction remaining with
  | zero =>
    intro k retries last r n h
    simp only [awaitTerminalAux] at h
    split at h <;> simp at h
  | succ m ih =>
    intro k retries last r n h
    simp only [awaitTerminalAux] at h
    by_cases hc : cancelled k = true
    · simp [hc] at h
    · simp only [hc, if_false, Bool.false_eq_true] at h
      cases hx : fetch k with
      | ok x =>
        rw [hx] at h
        by_cases ht : (statusOf x).isTerminal = true
        · simp only [ht, if_true] at h
          obtain ⟨h1, -⟩ := Prod.mk.injEq .. ▸ h
          obtain rfl := Except.ok.inj h1
          exact ht
        · simp only [ht, if_false, Bool.false_eq_true] at h
          exact ih (k + 1) retries (some x) r n h
      | error e =>
        rw [hx] at h
        by_cases he : e.isTransient = true
        · simp only [he, if_true] at h
          cases retries with
          | zero => simp at h
          | succ retries => exact ih (k + 1) retries last r n h
        · simp [he] at h

/-- If the first `n` fetches (starting at invocation index `k`) observe a
`Running` resource and the next fetch observes the succeeded resource `r`,
the poll loop with at least `n + 1` polls of fuel resolves with `r` after
exactly `k + n + 1` total invocations. -/
theorem awaitTerminalAux_running_prefix
    (fetch : Nat → Except TransportError Resource) (r : Resource)
    (hr : r.status = .Succeeded) :
    ∀ n m k retries last,
      (∀ j, j < n → ∃ x, fetch (k + j) = .ok x ∧ x.status = .Running) →
      fetch (k + n) = .ok r →
      awaitTerminalAux Resource.status fetch (fun _ => false) (n + (m + 1)) k retries last =
        (.ok r, k + n + 1) := by
  intro n
  induction n with
  | zero =>
    intro m k retries last _ hf
    rw [Nat.add_zero] at hf
    rw [Nat.zero_add, awaitTerminalAux_succ]
    simp [hf, hr, Status.isTerminal]
  | succ p ih =>
    intro m k retries last hrun hf
    obtain ⟨x, hx, hxs⟩ := hrun 0 (Nat.succ_pos p)
    rw [Nat.add_zero] at hx
    rw [show p + 1 + (m + 1) = (p + (m + 1)) + 1 from by omega,
      awaitTerminalAux_succ]
    simp only [hx, hxs, Status.isTerminal, if_false, Bool.false_eq_true]
    have hrec := ih m (k + 1) retries (some x)
      (fun j hj => by
        obtain ⟨y, hy, hys⟩ := hrun (j + 1) (by omega)
        refine ⟨y, ?_, hys⟩
        rw [show k + 1 + j = k + (j + 1) from by omega]
        exact hy)
      (by rw [show k + 1 + p = k + (p + 1) from by omega]; exact hf)
    rw [hrec]
    simp only [Prod.mk.injEq, true_and]
    omega

/-! ## Claim theorems -/

/-- C4: for every `webvtt_file_kind` string that is not one of
`MetadataJson`, `SourceLocaleSubtitle`, `TargetLocaleSubtitle`,
`create_iteration_with_webvtt` returns the local validation message and
performs zero invocations of the underlying client. -/
theorem create_iteration_invalid_kind_is_local (webvtt_file_kind : String)
    (client : WebvttFileKind → Except PyExn TerminatedOutcome)
    (h1 : webvtt_file_kind ≠ "MetadataJson")
    (h2 : webvtt_file_kind ≠ "SourceLocaleSubtitle")
    (h3 : webvtt_file_kind ≠ "TargetLocaleSubtitle") :
    create_iteration_with_webvtt client webvtt_file_kind =
      (invalidWebvttKindMsg webvtt_file_kind, 0) := by
  simp [create_iteration_with_webvtt, webvttKindOf, h1, h2, h3]

/-- Witness for C4 at the concrete kind string `BogusKind`. -/
theorem create_iteration_invalid_kind_is_local_witness :
    create_iteration_with_webvtt (fun _ => .ok ⟨true, "", none, none⟩) "BogusKind" =
      (invalidWebvttKindMsg "BogusKind", 0) :=
  create_iteration_invalid_kind_is_local "BogusKind" _
    (by decide) (by decide) (by decide)

/-- C5: `delete(id)` is idempotent — the first and the second delete of the
same id both report success (the client maps `NotFound` on delete to
success), and the agent's `delete_translation` accordingly renders the
success message for the outcome of either call. -/
theorem delete_translation_idempotent (ids : List String) (id : String) :
    (request_delete_translation ids id).1.1 = true ∧
    (request_delete_translation (request_delete_translation ids id).2 id).1.1 = true ∧
    delete_translation
        (.ok ⟨(request_delete_translation ids id).1.1,
              (request_delete_translation ids id).1.2⟩) id =
      "Translation " ++ id ++ " deleted successfully." := by
  refine ⟨request_delete_success ids id, request_delete_success _ id, ?_⟩
  simp [delete_translation, request_delete_success ids id]

/-- C7 counterexample: `list_translations` does not surface the error
returned by the client — on a failed listing it yields the fixed message,
identical for two different error payloads, so the error is discarded. -/
theorem list_translations_discards_error :
    list_translations (.ok ⟨false, "boom", none⟩) =
      "No translations found or error retrieving translations." ∧
    list_translations (.ok ⟨false, "boom", none⟩) =
      list_translations (.ok ⟨false, "", none⟩) :=
  ⟨rfl, rfl⟩

/-- C7 amended: `translate_video`, `create_iteration_with_webvtt`,
`get_translation_details` and `delete_translation` each carry the
client-returned error message in their failure output, but
`list_translations` replaces it with the fixed message
`No translations found or error retrieving translations.`. -/
theorem error_messages_surfaced (e tid vk : String) :
    translate_video (fun _ => .ok ⟨false, e, none, none⟩) vk =
      "Translation failed: " ++ e ∧
    create_iteration_with_webvtt (fun _ => .ok ⟨false, e, none, none⟩) "MetadataJson" =
      ("Iteration creation failed: " ++ e, 1) ∧
    get_translation_details (.ok ⟨false, e, none⟩) =
      "Translation not found or error: " ++ e ∧
    delete_translation (.ok ⟨false, e⟩) tid =
      "Failed to delete translation: " ++ e ∧
    list_translations (.ok ⟨false, e, none⟩) =
      "No translations found or error retrieving translations." :=
  ⟨rfl, rfl, rfl, rfl, rfl⟩

/-- C8: with the attributes `__init__` actually assigns, `upload_to_storage`
and `download_from_storage` always return the outer handler's error string
for the `AttributeError` on `self.credential`, and perform zero storage
operations. -/
theorem storage_ops_never_reach_storage (st : StorageBehavior)
    (account_name container_name blob_name : String) :
    upload_to_storage initAssignedAttrs st account_name container_name blob_name =
      ("Error initializing storage client: 'VideoTranslationPlugin' object has no attribute 'credential'", 0) ∧
    download_from_storage initAssignedAttrs st container_name blob_name =
      ("Error initializing storage client: 'VideoTranslationPlugin' object has no attribute 'credential'", 0) := by
  constructor <;> rfl

/-- C9: every `voice_kind` string other than the exact literal
`PlatformVoice` is silently mapped to `VoiceKind.PersonalVoice`, and
`translate_video` proceeds exactly as if `PersonalVoice` had been requested —
no validation error is produced. -/
theorem voice_kind_silent_fallback (voice_kind : String)
    (h : voice_kind ≠ "PlatformVoice")
    (client : VoiceKind → Except PyExn TerminatedOutcome) :
    voiceKindOf voice_kind = .PersonalVoice ∧
    translate_video client voice_kind = translate_video client "PersonalVoice" := by
  have hv : voiceKindOf voice_kind = .PersonalVoice := by
    simp [voiceKindOf, h]
  refine ⟨hv, ?_⟩
  simp only [translate_video, hv]
  rfl

/-- Witness for C9 at the misspelled kind string `platformvoice`. -/
theorem voice_kind_silent_fallback_witness :
    voiceKindOf "platformvoice" = .PersonalVoice ∧
    translate_video (fun _ => .ok ⟨false, "err", none, none⟩) "platformvoice" =
      translate_video (fun _ => .ok ⟨false, "err", none, none⟩) "PersonalVoice" :=
  voice_kind_silent_fallback "platformvoice" (by decide) _

/-- C10: when the underlying client raises an exception with message `m`,
each public plugin operation catches it and returns the corresponding
error-message string — no exception propagates to the caller. -/
theorem plugin_ops_never_propagate (m tid vk : String) :
    translate_video (fun _ => .error ⟨m⟩) vk =
      "An error occurred during translation: " ++ m ∧
    create_iteration_with_webvtt (fun _ => .error ⟨m⟩) "MetadataJson" =
      ("An error occurred during iteration creation: " ++ m, 1) ∧
    list_translations (.error ⟨m⟩) =
      "An error occurred while listing translations: " ++ m ∧
    get_translation_details (.error ⟨m⟩) =
      "An error occurred while getting translation details: " ++ m ∧
    delete_translation (.error ⟨m⟩) tid =
      "An error occurred while deleting the translation: " ++ m :=
  ⟨rfl, rfl, rfl, rfl, rfl⟩

/-- C2: whenever `awaitTerminal` resolves with a resource rather than a
`WaitError`, the resolved resource's status is `Succeeded` or `Failed` —
never `Running` or `NotStarted` — for every fetch function, cancellation
signal and poll policy. -/
theorem awaitTerminal_resolves_terminal {α : Type} (statusOf : α → Status)
    (fetch : Nat → Except TransportError α) (cancelled : Nat → Bool)
    (policy : PollPolicy) (r : α) (n : Nat)
    (h : awaitTerminal statusOf fetch cancelled policy = (.ok r, n)) :
    statusOf r = .Succeeded ∨ statusOf r = .Failed := by
  rw [awaitTerminal] at h
  exact (Status.isTerminal_iff (statusOf r)).1
    (awaitTerminalAux_ok_isTerminal statusOf fetch cancelled
      policy.maxPollCount 0 policy.maxTransientRetries none r n h)

/-- Witness for C2: a fetch that immediately observes a `Failed` resource. -/
theorem awaitTerminal_resolves_terminal_witness :
    Resource.status ⟨"res2", .Failed⟩ = .Succeeded ∨
    Resource.status ⟨"res2", .Failed⟩ = .Failed :=
  awaitTerminal_resolves_terminal Resource.status
    (fun _ => .ok ⟨"res2", .Failed⟩) (fun _ => false) ⟨3, 1⟩
    ⟨"res2", .Failed⟩ 1 rfl

/-- C3: if the fetch function observes `Running` on each of the first `N`
invocations and the succeeded resource `r` on invocation `N + 1`, and `N` is
within the policy's poll budget, then `awaitTerminal` resolves with `r`
after exactly `N + 1` fetch invocations. -/
theorem awaitTerminal_exact_polls
    (fetch : Nat → Except TransportError Resource) (policy : PollPolicy)
    (N : Nat) (r : Resource)
    (hN : N < policy.maxPollCount)
    (hrun : ∀ j, j < N → ∃ x, fetch j = .ok x ∧ x.status = .Running)
    (hf : fetch N = .ok r) (hr : r.status = .Succeeded) :
    awaitTerminal Resource.status fetch (fun _ => false) policy = (.ok r, N + 1) := by
  rw [awaitTerminal,
    show policy.maxPollCount = N + (policy.maxPollCount - N - 1 + 1) from by omega]
  have h := awaitTerminalAux_running_prefix fetch r hr N
    (policy.maxPollCount - N - 1) 0 policy.maxTransientRetries none
    (fun j hj => by simpa using hrun j hj)
    (by simpa using hf)
  simpa using h

/-- Witness for C3 with N = 2: two `Running` observations then `Succeeded`,
resolved after exactly 3 fetch invocations. -/
theorem awaitTerminal_exact_polls_witness :
    awaitTerminal Resource.status
      (fun j => if j < 2 then .ok ⟨"res1", .Running⟩ else .ok ⟨"res1", .Succeeded⟩)
      (fun _ => false) ⟨5, 2⟩ = (.ok ⟨"res1", .Succeeded⟩, 3) :=
  awaitTerminal_exact_polls
    (fun j => if j < 2 then .ok ⟨"res1", .Running⟩ else .ok ⟨"res1", .Succeeded⟩)
    ⟨5, 2⟩ 2 ⟨"res1", .Succeeded⟩ (by decide)
    (fun j hj => ⟨⟨"res1", .Running⟩, by simp [hj], rfl⟩)
    (by simp) rfl

/-- C1: for every valid `TranslationInput`, whenever `submit` returns
success, the success value carries both a Translation and an Iteration (by
the shape of the result — never a partially-populated pair) and both are in
a terminal state, `Succeeded` or `Failed`. -/
theorem submit_ok_both_terminal (env : SubmitEnv) (b : ValidationBounds)
    (policy : PollPolicy) (inp : TranslationInput) (t : Translation)
    (it : Iteration) (n : Nat)
    (hvalid : validateInput b inp = true)
    (h : submit env b policy inp = (.ok (t, it), n)) :
    (t.status = .Succeeded ∨ t.status = .Failed) ∧
    (it.status = .Succeeded ∨ it.status = .Failed) := by
  simp only [submit, hvalid, if_true] at h
  split at h
  next e hc => simp at h
  next ci hc =>
    split at h
    next w cnt hT => simp at h
    next t0 cnt hT =>
      have htT : t0.status.isTerminal = true := by
        rw [awaitTerminal] at hT
        exact awaitTerminalAux_ok_isTerminal Translation.status env.pollTranslation
          (fun _ => false) policy.maxPollCount 0 policy.maxTransientRetries none
          t0 cnt hT
      split at h
      next hfail => simp at h
      next hfail =>
        split at h
        next w cntI hI => simp at h
        next it0 cntI hI =>
          have htI : it0.status.isTerminal = true := by
            rw [awaitTerminal] at hI
            exact awaitTerminalAux_ok_isTerminal Iteration.status env.pollIteration
              (fun _ => false) policy.maxPollCount 0 policy.maxTransientRetries none
              it0 cntI hI
          simp only [Prod.mk.injEq, Except.ok.injEq] at h
          obtain ⟨⟨rfl, rfl⟩, -⟩ := h
          exact ⟨(Status.isTerminal_iff _).1 htT, (Status.isTerminal_iff _).1 htI⟩

/-- The concrete translation input used by the submission witnesses. -/
def inpW : TranslationInput :=
  ⟨"https://x/video.mp4", "en-US", "ja-JP", .PlatformVoice, none, none, none⟩

/-- A succeeded translation snapshot for the C1 witness. -/
def trSucceededW : Translation :=
  ⟨"t1", .Succeeded, "2024-01-01", "2024-01-02", inpW, none⟩

/-- A succeeded iteration snapshot for the submission witnesses. -/
def itSucceededW : Iteration := ⟨"i1", .Succeeded, none⟩

/-- Witness for C1: a service whose translation and first iteration both
poll straight to `Succeeded`. -/
theorem submit_ok_both_terminal_witness :
    (trSucceededW.status = .Succeeded ∨ trSucceededW.status = .Failed) ∧
    (itSucceededW.status = .Succeeded ∨ itSucceededW.status = .Failed) :=
  submit_ok_both_terminal
    ⟨.ok (trSucceededW, itSucceededW), fun _ => .ok trSucceededW, fun _ => .ok itSucceededW⟩
    ⟨1, 100⟩ ⟨3, 2⟩ inpW trSucceededW itSucceededW 1 rfl rfl

/-- C6: if the Translation's wait resolves in the `Failed` terminal state,
`submit` stops with the typed `translationFailed` error, makes zero
iteration-poll invocations, and its outcome does not depend on the
iteration poll stream at all. -/
theorem submit_translation_failed_skips_iteration (env : SubmitEnv)
    (b : ValidationBounds) (policy : PollPolicy) (inp : TranslationInput)
    (t : Translation) (k : Nat) (ci : Translation × Iteration)
    (hvalid : validateInput b inp = true)
    (hcreate : env.create = .ok ci)
    (hawait : awaitTerminal Translation.status env.pollTranslation
        (fun _ => false) policy = (.ok t, k))
    (hfail : t.status = .Failed) :
    submit env b policy inp = (.error (.translationFailed t), 0) ∧
    ∀ g, submit { env with pollIteration := g } b policy inp =
      (.error (.translationFailed t), 0) := by
  have main : ∀ g, submit { env with pollIteration := g } b policy inp =
      (.error (.translationFailed t), 0) := by
    intro g
    simp only [submit, hvalid, if_true]
    simp [hcreate, hawait, hfail]
  exact ⟨main env.pollIteration, main⟩

/-- A failed translation snapshot for the C6 witness. -/
def trFailedW : Translation :=
  ⟨"t2", .Failed, "2024-01-01", "2024-01-02", inpW, none⟩

/-- Witness for C6: a service whose translation polls straight to `Failed`;
submission reports the typed failure with zero iteration polls. -/
theorem submit_translation_failed_skips_iteration_witness :
    submit ⟨.ok (trFailedW, itSucceededW), fun _ => .ok trFailedW, fun _ => .ok itSucceededW⟩
        ⟨1, 100⟩ ⟨3, 2⟩ inpW =
      (.error (.translationFailed trFailedW), 0) :=
  (submit_translation_failed_skips_iteration
    ⟨.ok (trFailedW, itSucceededW), fun _ => .ok trFailedW, fun _ => .ok itSucceededW⟩
    ⟨1, 100⟩ ⟨3, 2⟩ inpW trFailedW 1 (trFailedW, itSucceededW)
    rfl rfl rfl rfl).1

end VT
